import Mathlib

/-!
Shallow embedding of the Acts track-fitting components under verification:
the Kalman fitter actor (KalmanFitter.hpp), the chi-squared evaluator used
for measurement selection (MeasurementSelector.cpp) and the seed-filter
configuration (SeedFilterConfig.hpp).

External collaborators of the fitter (the propagator/stepper numerics, the
navigator, the calibrator/updater/smoother kernels, the material
interaction) are, as in the design, abstracted behind delegate functions
collected in an environment record; the control flow of the actor itself
is translated statement by statement from the source.  C++ mutation of the
propagator state and of the fit result becomes explicit state passing;
the SIZE_MAX sentinel for arena indices becomes `Option ℕ` with `none`
playing the sentinel; `double` arithmetic is modelled over `ℚ`.
-/

namespace Acts

/-! ### Basic geometry and measurement model -/

/-- A detector surface.  In the source a surface is identified by address
and carries a geometry identifier, an optional associated detector element
and optional surface material; here pointer identity is modelled by value
identity of this record. -/
structure Surface where
  geometryId : ℕ
  hasDetectorElement : Bool
  hasMaterial : Bool
  deriving DecidableEq, Repr

instance : Inhabited Surface := ⟨⟨0, false, false⟩⟩

/-- Opaque handle to one uncalibrated measurement, tagged by the geometry
identifier of its surface. -/
structure SourceLink where
  geometryId : ℕ
  payload : ℕ
  deriving DecidableEq, Repr

/-- Navigation direction of the propagation. -/
inductive NavigationDirection where
  | Forward
  | Backward
  deriving DecidableEq, Repr

/-- Flip the navigation direction (Forward <-> Backward). -/
def NavigationDirection.flip : NavigationDirection → NavigationDirection
  | .Forward => .Backward
  | .Backward => .Forward

/-- The direction as a sign factor, used when the source multiplies a
navigation direction with a scalar. -/
def NavigationDirection.sign : NavigationDirection → ℚ
  | .Forward => 1
  | .Backward => -1

/-- Stage of a material update on a surface. -/
inductive MaterialUpdateStage where
  | PreUpdate
  | PostUpdate
  | FullUpdate
  deriving DecidableEq, Repr

/-- The error kinds of KalmanFitterError. -/
inductive KalmanFitterError where
  | NoMeasurementFound
  | ReverseNavigationFailed
  | BackwardUpdateFailed
  | SmoothFailed
  deriving DecidableEq, Repr

/-- Errors surfaced by a fit: either a KalmanFitterError raised by the
fitter itself, or an error propagated opaquely from an external
collaborator (stepper, navigator, calibrator, updater, smoother), which
has its own error domain and is modelled by an opaque code. -/
inductive FitError where
  | kf : KalmanFitterError → FitError
  | ext : ℕ → FitError
  deriving DecidableEq, Repr

/-! ### Bound parameters and track states -/

/-- Dimension of bound track parameters: local x, local y, phi, theta,
q/p and time. -/
def eBoundSize : ℕ := 6

/-- A bound parameter vector. -/
abbrev BoundVector := Fin 6 → ℚ

/-- A bound covariance (or Jacobian) matrix. -/
abbrev BoundMatrix := Matrix (Fin 6) (Fin 6) ℚ

/-- The type flags of a track state. -/
structure TrackStateFlags where
  measurement : Bool := false
  outlier : Bool := false
  hole : Bool := false
  material : Bool := false
  deriving DecidableEq, Repr

/-- One node of the multi-trajectory arena.  The calibrated measurement
slots are owned by the external calibrator/updater kernels and are not
modelled beyond the source link; `previous` is the back-pointer to the
predecessor node (`none` is the start-of-chain sentinel). -/
structure TrackState where
  surface : Surface := default
  flags : TrackStateFlags := {}
  predicted : BoundVector := fun _ => 0
  predictedCov : BoundMatrix := 0
  filtered : BoundVector := fun _ => 0
  filteredCov : BoundMatrix := 0
  smoothed : BoundVector := fun _ => 0
  smoothedCov : BoundMatrix := 0
  hasSmoothed : Bool := false
  jacobian : BoundMatrix := 0
  pathLength : ℚ := 0
  uncalibrated : Option SourceLink := none
  previous : Option ℕ := none
  deriving DecidableEq

instance : Inhabited TrackState := ⟨{}⟩

/-- The append-only multi-trajectory arena of track states. -/
structure MultiTrajectory where
  states : Array TrackState
  deriving DecidableEq

instance : Inhabited MultiTrajectory := ⟨⟨#[]⟩⟩

/-- Point update of one arena node (a write through a track state proxy in
the source); out-of-range indices leave the arena unchanged. -/
def MultiTrajectory.modifyState (mt : MultiTrajectory) (i : ℕ)
    (f : TrackState → TrackState) : MultiTrajectory :=
  ⟨mt.states.modify i f⟩

/-- Modelled from the spec: the backward walk over the multi-trajectory
(`MultiTrajectory::applyBackwards`, outside the provided sources) visits
the entry index and then follows the `previous` back-pointers until the
start-of-chain sentinel.  The walk is expressed with explicit fuel; since
back-pointers of an append-only arena strictly decrease, fuel equal to the
arena size always suffices.  Walking from the sentinel visits nothing. -/
def walkIndices (mt : MultiTrajectory) : ℕ → Option ℕ → List ℕ
  | 0, _ => []
  | _, none => []
  | fuel + 1, some i =>
      match mt.states.get? i with
      | none => []
      | some st => i :: walkIndices mt fuel st.previous

/-- The list of indices visited by a backward walk from the given entry
index, with the canonical fuel. -/
def MultiTrajectory.backwardIndices (mt : MultiTrajectory)
    (entry : Option ℕ) : List ℕ :=
  walkIndices mt mt.states.size entry

/-! ### The fit result (KalmanFitterResult) -/

/-- Decidable equality for Result values (Except). -/
def exceptDecEq {ε α : Type} [DecidableEq ε] [DecidableEq α] :
    DecidableEq (Except ε α)
  | .ok x, .ok y =>
      match decEq x y with
      | isTrue h => isTrue (congrArg Except.ok h)
      | isFalse h => isFalse (fun c => h (Except.ok.inj c))
  | .error x, .error y =>
      match decEq x y with
      | isTrue h => isTrue (congrArg Except.error h)
      | isFalse h => isFalse (fun c => h (Except.error.inj c))
  | .ok _, .error _ => isFalse (fun c => Except.noConfusion c)
  | .error _, .ok _ => isFalse (fun c => Except.noConfusion c)

instance {ε α : Type} [DecidableEq ε] [DecidableEq α] :
    DecidableEq (Except ε α) := exceptDecEq

/-- The accumulated outcome of one fit, mirroring KalmanFitterResult.
The SIZE_MAX sentinel of the two arena indices is modelled by `none`;
fitted parameters are a bound vector with optional covariance. -/
structure FitResult where
  fittedStates : MultiTrajectory := default
  lastMeasurementIndex : Option ℕ := none
  lastTrackIndex : Option ℕ := none
  fittedParameters : Option (BoundVector × Option BoundMatrix) := none
  measurementStates : ℕ := 0
  measurementHoles : ℕ := 0
  processedStates : ℕ := 0
  smoothed : Bool := false
  reversed : Bool := false
  finished : Bool := false
  missedActiveSurfaces : List Surface := []
  passedAgainSurfaces : List Surface := []
  result : Except FitError Unit := .ok ()
  deriving DecidableEq

instance : Inhabited FitResult := ⟨{}⟩

/-! ### Propagator state -/

/-- The navigation part of the propagator state seen by the actor.
The external-surfaces multimap keyed by layer identifier is modelled as a
list of (layer, geometry id) pairs. -/
structure NavigationState where
  currentSurface : Option Surface := none
  startSurface : Option Surface := none
  navigationBreak : Bool := false
  externalSurfaces : List (ℕ × ℕ) := []
  deriving DecidableEq

/-- The stepping part of the propagator state.  The numerical content of
the stepper (position, direction, transported covariance) belongs to an
external collaborator and is carried opaquely in `core`, transformed only
by the stepper delegates of the environment; the fields the actor reads
or writes directly are explicit. -/
structure SteppingState where
  navDir : NavigationDirection := .Forward
  covTransport : Bool := true
  stepSize : ℚ := 0
  pathAccumulated : ℚ := 0
  core : ℕ := 0
  deriving DecidableEq

/-- The plain propagator options the actor touches. -/
structure PropOptions where
  maxStepSize : ℚ := 0
  pathLimit : ℚ := 0
  deriving DecidableEq

/-- The mutable propagator state threaded through actor calls. -/
structure PropState where
  navigation : NavigationState := {}
  stepping : SteppingState := {}
  options : PropOptions := {}
  deriving DecidableEq

instance : Inhabited PropState := ⟨{}⟩

/-! ### Options, actor settings and the environment -/

/-- Modelled from the spec: the `freeToBoundCorrection` option is a
toggle for the non-linearity correction of the free-to-bound transform
(the FreeToBoundCorrection type itself lives outside the provided
sources); a default-constructed value has the correction disabled. -/
structure FreeToBoundCorrection where
  apply : Bool := false
  deriving DecidableEq, Repr

/-- The configurable data members of the Kalman actor, in the order they
are declared in the source.  `freeToBoundCorrection` is default
initialised, matching the in-class initialisation of the member. -/
structure ActorSettings where
  targetSurface : Option Surface := none
  inputMeasurements : List (ℕ × SourceLink) := []
  multipleScattering : Bool := true
  energyLoss : Bool := true
  reversedFiltering : Bool := false
  reversedFilteringCovarianceScaling : ℚ := 1
  freeToBoundCorrection : FreeToBoundCorrection := {}

/-- The options bundle accepted by the fit entry points (the fields a fit
entry copies into the actor; contexts, logger and the plain propagator
options do not influence the modelled control flow). -/
structure KalmanFitterOptions where
  referenceSurface : Option Surface := none
  multipleScattering : Bool := true
  energyLoss : Bool := true
  reversedFiltering : Bool := false
  reversedFilteringCovarianceScaling : ℚ := 1
  freeToBoundCorrection : FreeToBoundCorrection := {}

/-- The environment of one fit: the actor settings together with the
delegates abstracting all external collaborators (pluggable extension
kernels, the detail helpers for measurement handling, the stepper and the
navigator).  Errors of external collaborators are opaque codes. -/
structure Env extends ActorSettings where
  isDirectNavigator : Bool := false
  layerOf : ℕ → ℕ := id
  calibrator : PropState → TrackState → TrackState := fun _ ts => ts
  updater : PropState → TrackState → NavigationDirection →
      Except ℕ TrackState := fun _ ts _ => .ok ts
  smoother : PropState → MultiTrajectory → ℕ →
      Except ℕ MultiTrajectory := fun _ mt _ => .ok mt
  reverseFilteringLogic : TrackState → Bool := fun _ => false
  kalmanHandleMeasurement : PropState → Surface → SourceLink →
      MultiTrajectory → Option ℕ → Except ℕ (MultiTrajectory × ℕ) :=
    fun _ _ _ mt _ => .ok (mt, 0)
  kalmanHandleNoMeasurement : PropState → Surface →
      MultiTrajectory → Option ℕ → Except ℕ (MultiTrajectory × ℕ) :=
    fun _ _ mt _ => .ok (mt, 0)
  transportCovarianceToBound : SteppingState → Surface →
      FreeToBoundCorrection → SteppingState := fun s _ _ => s
  transportCovarianceToCurvilinear : SteppingState → SteppingState := id
  setIdentityJacobian : SteppingState → SteppingState := id
  stepperUpdate : SteppingState → TrackState → Surface → SteppingState :=
    fun s _ _ => s
  stepperResetState : SteppingState → BoundVector → BoundMatrix →
      Surface → NavigationDirection → ℚ → SteppingState := fun s _ _ _ _ _ => s
  stepperDefaultStepSize : ℚ := 0
  stepperBoundState : SteppingState → Surface → Bool →
      FreeToBoundCorrection →
      Except ℕ (SteppingState × (BoundVector × Option BoundMatrix) ×
        BoundMatrix × ℚ) :=
    fun s _ _ _ => .ok (s, ((fun _ => 0), none), 0, 0)
  navigationReset : PropState → Surface → Option Surface →
      NavigationState := fun s _ _ => s.navigation
  materialUpdate : Bool → Bool → Surface → MaterialUpdateStage →
      SteppingState → SteppingState := fun _ _ _ _ s => s
  intersectPathLength : PropState → TrackState → ℚ := fun _ _ => 0
  targetReachedFn : PropState → Surface → Bool := fun _ _ => false

/-- The environment with all delegates at their inert defaults; used to
build concrete instances. -/
def trivialEnv : Env := {}

/-- Source-link lookup in the measurement index (std::map::find keyed by
geometry id). -/
def lookupMeasurement (env : Env) (gid : ℕ) : Option SourceLink :=
  (env.inputMeasurements.find? (fun p => p.1 == gid)).map Prod.snd

/-- std::vector::resize on the missed-surface list: truncate when the
target count is smaller, pad with null surfaces (modelled by the default
surface) when it is larger; the resulting length is always the target. -/
def listResize (l : List Surface) (n : ℕ) : List Surface :=
  l.take n ++ List.replicate (n - l.length) (default : Surface)

/-- Attach an optional error to the result slot, as the actor does after
each phase (result.result = res.error() when the phase failed). -/
def applyErr (r : FitResult) : Option FitError → FitResult
  | some e => { r with result := .error e }
  | none => r

/-! ### Kalman actor operations -/

/-- Kalman actor operation: material interaction (Actor::materialInteractor).
The pointwise material interaction itself is an external collaborator; the
guard on the surface and on the presence of surface material is the
actor's. -/
def materialInteractor (env : Env) (surface : Option Surface)
    (state : PropState)
    (updateStage : MaterialUpdateStage := .FullUpdate) : PropState :=
  match surface with
  | none => state
  | some sf =>
      if sf.hasMaterial then
        { state with stepping :=
            (env.materialUpdate env.multipleScattering env.energyLoss sf
              updateStage state.stepping) }
      else state

/-- Kalman actor operation: forward update (Actor::filter).  Returns the
propagator state and fit result after the step together with the optional
error the call would return; mutations performed before an error are
kept, as the C++ references are. -/
def filter (env : Env) (surface : Surface) (state : PropState)
    (result : FitResult) : PropState × FitResult × Option FitError :=
  match lookupMeasurement env surface.geometryId with
  | some sl =>
      let state1 : PropState := { state with stepping :=
        (env.transportCovarianceToBound state.stepping surface
          env.freeToBoundCorrection) }
      let state2 := materialInteractor env (some surface) state1 .PreUpdate
      match env.kalmanHandleMeasurement state2 surface sl
          result.fittedStates result.lastTrackIndex with
      | .error e => (state2, result, some (.ext e))
      | .ok (mt', idx) =>
          let result1 : FitResult :=
            { result with fittedStates := mt', lastTrackIndex := some idx }
          let ts := mt'.states.getD idx default
          let state3 :=
            if ts.flags.measurement then
              { state2 with stepping :=
                  env.stepperUpdate state2.stepping ts surface }
            else state2
          let result2 :=
            if ts.flags.measurement then
              { result1 with measurementStates := result1.measurementStates + 1 }
            else result1
          let state4 := materialInteractor env (some surface) state3 .PostUpdate
          let result3 : FitResult := { result2 with
            processedStates := result2.processedStates + 1,
            measurementHoles := result2.missedActiveSurfaces.length,
            lastMeasurementIndex := result2.lastTrackIndex }
          (state4, result3, none)
  | none =>
      if surface.hasDetectorElement || surface.hasMaterial then
        if result.measurementStates > 0 || surface.hasMaterial then
          match env.kalmanHandleNoMeasurement state surface
              result.fittedStates result.lastTrackIndex with
          | .error e => (state, result, some (.ext e))
          | .ok (mt', idx) =>
              let result1 : FitResult :=
                { result with fittedStates := mt', lastTrackIndex := some idx }
              let ts := mt'.states.getD idx default
              let result2 :=
                if ts.flags.hole then
                  { result1 with missedActiveSurfaces :=
                      result1.missedActiveSurfaces ++ [surface] }
                else result1
              let result3 :=
                { result2 with processedStates := result2.processedStates + 1 }
              let state1 :=
                if surface.hasMaterial then
                  materialInteractor env (some surface) state .FullUpdate
                else state
              (state1, result3, none)
        else
          let state1 :=
            if surface.hasMaterial then
              materialInteractor env (some surface) state .FullUpdate
            else state
          (state1, result, none)
      else (state, result, none)

/-- Kalman actor operation: update in reversed direction
(Actor::reversedFilter). -/
def reversedFilter (env : Env) (surface : Surface) (state : PropState)
    (result : FitResult) : PropState × FitResult × Option FitError :=
  match lookupMeasurement env surface.geometryId with
  | some sl =>
      if result.reversed && (state.navigation.startSurface == some surface) then
        (materialInteractor env (some surface) state, result, none)
      else
        let state1 : PropState := { state with stepping :=
          (env.transportCovarianceToBound state.stepping surface
            env.freeToBoundCorrection) }
        let state2 := materialInteractor env (some surface) state1 .PreUpdate
        match env.stepperBoundState state2.stepping surface false {} with
        | .error e => (state2, result, some (.ext e))
        | .ok (stepping2, boundParams, jac, pathLen) =>
            let state3 : PropState := { state2 with stepping := stepping2 }
            let tempTrackTip := result.fittedStates.states.size
            let newNode : TrackState := { (default : TrackState) with
              surface := surface,
              uncalibrated := some sl,
              predicted := boundParams.1,
              predictedCov := boundParams.2.getD (default : TrackState).predictedCov,
              jacobian := jac,
              pathLength := pathLen }
            let mt1 : MultiTrajectory := ⟨result.fittedStates.states.push newNode⟩
            let mt2 := mt1.modifyState tempTrackTip (fun n => env.calibrator state3 n)
            let node := mt2.states.getD tempTrackTip default
            match env.updater state3 node state3.stepping.navDir with
            | .error e =>
                (state3, { result with fittedStates := mt2 }, some (.ext e))
            | .ok node' =>
                let mt3 := mt2.modifyState tempTrackTip (fun _ => node')
                let visited := mt3.backwardIndices result.lastMeasurementIndex
                let hit := visited.find?
                  (fun i => (mt3.states.getD i default).surface == surface)
                let mt4 :=
                  match hit with
                  | some i => mt3.modifyState i (fun n =>
                      { n with smoothed := node'.filtered,
                               smoothedCov := node'.filteredCov,
                               hasSmoothed := true })
                  | none => mt3
                let passed :=
                  match hit with
                  | some _ => result.passedAgainSurfaces ++ [surface]
                  | none => result.passedAgainSurfaces
                let result1 : FitResult := { result with
                  fittedStates := mt4, passedAgainSurfaces := passed }
                let state4 : PropState := { state3 with stepping :=
                  (env.stepperUpdate state3.stepping node' surface) }
                let state5 :=
                  materialInteractor env (some surface) state4 .PostUpdate
                (state5, result1, none)
  | none =>
      if surface.hasDetectorElement || surface.hasMaterial then
        let stepping1 :=
          if surface.hasDetectorElement then
            (if state.stepping.covTransport then
               env.transportCovarianceToBound state.stepping surface {}
             else state.stepping)
          else
            (if state.stepping.covTransport then
               env.transportCovarianceToCurvilinear state.stepping
             else state.stepping)
        let stepping2 := env.setIdentityJacobian stepping1
        let state1 : PropState := { state with stepping := stepping2 }
        let state2 :=
          if surface.hasMaterial then
            materialInteractor env (some surface) state1 .FullUpdate
          else state1
        (state2, result, none)
      else (state, result, none)

/-- Kalman actor operation: reverse direction (Actor::reverse). -/
def reverse (env : Env) (state : PropState) (result : FitResult) :
    PropState × FitResult × Option FitError :=
  match result.lastMeasurementIndex with
  | none => (state, result, some (.kf .ReverseNavigationFailed))
  | some lmi =>
      let result1 : FitResult := { result with reversed := true }
      let newDir := state.stepping.navDir.flip
      let opts1 : PropOptions :=
        { state.options with
          maxStepSize := newDir.sign * |state.options.maxStepSize|,
          pathLimit := newDir.sign * |state.options.pathLimit| }
      let st := result1.fittedStates.states.getD lmi default
      let stepping1 : SteppingState := { state.stepping with navDir := newDir }
      let stepping2 := env.stepperResetState stepping1 st.filtered
        (env.reversedFilteringCovarianceScaling • st.filteredCov)
        st.surface newDir opts1.maxStepSize
      let mt' := result1.fittedStates.modifyState lmi (fun n =>
        { n with smoothed := n.filtered, smoothedCov := n.filteredCov,
                 hasSmoothed := true })
      let result2 : FitResult := { result1 with
        fittedStates := mt',
        passedAgainSurfaces := result1.passedAgainSurfaces ++ [st.surface] }
      let stateMid : PropState :=
        { navigation := state.navigation, stepping := stepping2, options := opts1 }
      let nav1 := env.navigationReset stateMid st.surface env.targetSurface
      let state1 : PropState := { stateMid with navigation := nav1 }
      let state2 := materialInteractor env nav1.currentSurface state1
      (state2, result2, none)

/-- Kalman actor operation: finalize and smooth (Actor::finalize).  The
smoothed flag is set on entry, before the walk that counts the states to
smooth, exactly as in the source. -/
def finalize (env : Env) (state : PropState) (result : FitResult) :
    PropState × FitResult × Option FitError :=
  let result1 : FitResult := { result with smoothed := true }
  let visited := result1.fittedStates.backwardIndices result1.lastMeasurementIndex
  let nStates := visited.length
  let lmi := result1.lastMeasurementIndex.getD 0
  let firstStateIndex := visited.foldl (fun acc i =>
      let st := result1.fittedStates.states.getD i default
      if st.flags.measurement || st.flags.material then i else acc) lmi
  if nStates = 0 then
    (state, result1, some (.kf .SmoothFailed))
  else
    match env.smoother state result1.fittedStates lmi with
    | .error e => (state, result1, some (.ext e))
    | .ok mt' =>
        let result2 : FitResult := { result1 with fittedStates := mt' }
        match env.targetSurface with
        | none => (state, result2, none)
        | some _ =>
            let firstCreatedState := mt'.states.getD firstStateIndex default
            let lastCreatedMeasurement := mt'.states.getD lmi default
            let firstPL := env.intersectPathLength state firstCreatedState
            let lastPL := env.intersectPathLength state lastCreatedMeasurement
            let closerToFirst : Bool := |firstPL| ≤ |lastPL|
            let stepping1 :=
              if closerToFirst then
                env.stepperResetState state.stepping firstCreatedState.smoothed
                  firstCreatedState.smoothedCov firstCreatedState.surface
                  .Forward env.stepperDefaultStepSize
              else
                env.stepperResetState state.stepping lastCreatedMeasurement.smoothed
                  lastCreatedMeasurement.smoothedCov lastCreatedMeasurement.surface
                  .Forward env.stepperDefaultStepSize
            let reverseDirection : Bool :=
              if closerToFirst then firstPL < 0 else lastPL < 0
            let stepping2 :=
              if reverseDirection then
                { stepping1 with navDir := stepping1.navDir.flip }
              else stepping1
            let stepping3 : SteppingState := { stepping2 with
              stepSize := stepping2.navDir.sign * |state.options.maxStepSize|,
              pathAccumulated := 0 }
            ({ state with stepping := stepping3 }, result2, none)

/-- Unset the Smoothed presence of every state along the backward walk
whose surface was not passed again during reversed filtering (the lambda
of Actor::operator() when completing a reversed fit at the target). -/
def unsetSmoothedNotPassed (r : FitResult) : MultiTrajectory :=
  (r.fittedStates.backwardIndices r.lastMeasurementIndex).foldl
    (fun mt i =>
      if r.passedAgainSurfaces.any
          (fun s => s == (mt.states.getD i default).surface) then mt
      else mt.modifyState i (fun n => { n with hasSmoothed := false }))
    r.fittedStates

/-- The proxy handed to the reverse-filtering logic extension: the track
state at lastMeasurementIndex; at the sentinel the source constructs a
proxy whose content is unspecified, modelled by the default state. -/
def stateForReverseLogic (r : FitResult) : TrackState :=
  match r.lastMeasurementIndex with
  | some i => r.fittedStates.states.getD i default
  | none => default

/-- At the first invocation with a non-direct navigator, inject every
measurement surface into the navigator's external-surfaces multimap keyed
by its layer identifier. -/
def injectExternalSurfaces (env : Env) (state : PropState)
    (result : FitResult) : PropState :=
  if !env.isDirectNavigator && result.processedStates == 0 then
    { state with navigation := { state.navigation with
        externalSurfaces := state.navigation.externalSurfaces ++
          env.inputMeasurements.map (fun p => (env.layerOf p.1, p.1)) } }
  else state

/-- The update part of one actor invocation: while waiting for a current
surface, run the forward filter if neither smoothed nor reversed, then
the reversed filter if reversed; each failure is stored into the result
slot. -/
def filteringPhase (env : Env) (state : PropState) (result : FitResult) :
    PropState × FitResult :=
  match state.navigation.currentSurface with
  | none => (state, result)
  | some surface =>
      let stepA : PropState × FitResult :=
        if !result.smoothed && !result.reversed then
          let t := filter env surface state result
          (t.1, applyErr t.2.1 t.2.2)
        else (state, result)
      if stepA.2.reversed then
        let t := reversedFilter env surface stepA.1 stepA.2
        (t.1, applyErr t.2.1 t.2.2)
      else stepA

/-- The finalization part of one actor invocation: when all measurements
have been handled, or the navigation broke with at least one measurement,
truncate the missed active surfaces to the hole count and either reverse
the navigation for reversed filtering or run the smoother. -/
def finalizationPhase (env : Env) (state : PropState) (result : FitResult) :
    PropState × FitResult :=
  if !result.smoothed && !result.reversed then
    if result.measurementStates == env.inputMeasurements.length ||
       (result.measurementStates > 0 && state.navigation.navigationBreak) then
      let rT : FitResult := { result with missedActiveSurfaces :=
        (listResize result.missedActiveSurfaces result.measurementHoles) }
      if env.reversedFiltering ||
          env.reverseFilteringLogic (stateForReverseLogic rT) then
        let t := reverse env state rT
        (t.1, applyErr t.2.1 t.2.2)
      else
        let t := finalize env state rT
        (t.1, applyErr t.2.1 t.2.2)
    else (state, result)
  else (state, result)

/-- The post-finalization part of one actor invocation: progress to the
target surface and build the final track parameters, or finish (or fail)
when no target surface was provided. -/
def postFinalization (env : Env) (state : PropState) (result : FitResult) :
    PropState × FitResult :=
  if result.smoothed || result.reversed then
    match env.targetSurface with
    | none =>
        if result.reversed then
          (state, { result with result := .error (.kf .BackwardUpdateFailed) })
        else
          (state, { result with finished := true })
    | some target =>
        if env.targetReachedFn state target then
          match env.stepperBoundState state.stepping target true
              env.freeToBoundCorrection with
          | .error e =>
              (state, { result with result := .error (.ext e) })
          | .ok (stepping', fittedState, _jac, _pl) =>
              let r3 : FitResult :=
                { result with fittedParameters := some fittedState }
              let r4 : FitResult :=
                if r3.reversed then
                  { r3 with fittedStates := unsetSmoothedNotPassed r3 }
                else r3
              ({ state with stepping := stepping' },
               { r4 with finished := true })
        else (state, result)
  else (state, result)

/-- One invocation of the Kalman actor (Actor::operator()): no-op once
finished, else external-surface injection, per-step dispatch, the
termination check, and the post-finalization targeting, in source
order. -/
def actorStep (env : Env) (state : PropState) (result : FitResult) :
    PropState × FitResult :=
  if result.finished then (state, result)
  else
    let state0 := injectExternalSurfaces env state result
    let step1 := filteringPhase env state0 result
    let step2 := finalizationPhase env step1.1 step1.2
    postFinalization env step2.1 step2.2

/-- The aborter fed to the propagator (KalmanFitter::Aborter): stop when
the result slot carries an error or the fit is finished. -/
def aborter (result : FitResult) : Bool :=
  match result.result with
  | .error _ => true
  | .ok _ => result.finished

/-- Post-propagation validation shared by both fit entry points
(KalmanFitter::fit after propagate returns): a propagation error is
forwarded; a fit that ended with zero measurement states and an otherwise
clean result slot is turned into NoMeasurementFound; any error left in
the result slot is returned, otherwise the populated result is. -/
def fitPostProcess (propOutcome : Except ℕ FitResult) :
    Except FitError FitResult :=
  match propOutcome with
  | .error e => .error (.ext e)
  | .ok kalmanResult =>
      let kr : FitResult :=
        match kalmanResult.result with
        | .ok _ =>
            if kalmanResult.measurementStates = 0 then
              { kalmanResult with result :=
                  (.error (.kf .NoMeasurementFound)) }
            else kalmanResult
        | .error _ => kalmanResult
      match kr.result with
      | .error e => .error e
      | .ok _ => .ok kr

/-- The actor configuration performed by the standard-navigator fit entry
point (KalmanFitter::fit, non-direct overload): every option field listed
in the source is copied into the actor, including freeToBoundCorrection. -/
def setupKalmanActorStandard (ms : List (ℕ × SourceLink))
    (o : KalmanFitterOptions) : ActorSettings :=
  { inputMeasurements := ms,
    targetSurface := o.referenceSurface,
    multipleScattering := o.multipleScattering,
    energyLoss := o.energyLoss,
    reversedFiltering := o.reversedFiltering,
    reversedFilteringCovarianceScaling := o.reversedFilteringCovarianceScaling,
    freeToBoundCorrection := o.freeToBoundCorrection }

/-- The actor configuration performed by the DirectNavigator fit entry
point (KalmanFitter::fit, direct overload): the same assignments except
that freeToBoundCorrection is never copied, so the actor keeps the
default-initialised member. -/
def setupKalmanActorDirect (ms : List (ℕ × SourceLink))
    (o : KalmanFitterOptions) : ActorSettings :=
  { inputMeasurements := ms,
    targetSurface := o.referenceSurface,
    multipleScattering := o.multipleScattering,
    energyLoss := o.energyLoss,
    reversedFiltering := o.reversedFiltering,
    reversedFilteringCovarianceScaling := o.reversedFilteringCovarianceScaling }

/-! ### Seed filter configuration (SeedFilterConfig.hpp) -/

/-- Modelled from the spec: internal units are millimetres, so one
millimetre equals 1 in internal units (the Acts::UnitConstants header is
outside the provided sources; the spec fixes the internal length unit to
the millimetre and states that the normalization divides length fields by
one millimetre and is idempotent after the first application). -/
def UnitConstants.mm : ℚ := 1

/-- Modelled from the spec: the seed-confirmation parameter sub-bundle
(central and forward regions); its content is outside the provided
sources and does not participate in the unit normalization. -/
structure SeedConfirmationRangeConfig where
  payload : ℕ := 0
  deriving DecidableEq, Repr

/-- The seed filter parameter bundle.  Floating-point fields are modelled
over ℚ; the source default for numSeedIncrement, positive infinity, has
no rational model, so that field carries no default here (the claims do
not touch the defaults). -/
structure SeedFilterConfig where
  deltaInvHelixDiameter : ℚ := (3 / 100000) * (1 / UnitConstants.mm)
  impactWeightFactor : ℚ := 1
  compatSeedWeight : ℚ := 200
  deltaRMin : ℚ := 5 * UnitConstants.mm
  maxSeedsPerSpM : ℕ := 10
  compatSeedLimit : ℕ := 2
  curvatureSortingInFilter : Bool := false
  seedWeightIncrement : ℚ := 0
  numSeedIncrement : ℚ
  seedConfirmation : Bool := false
  centralSeedConfirmationRange : SeedConfirmationRangeConfig := {}
  forwardSeedConfirmationRange : SeedConfirmationRangeConfig := {}
  seedConfMinBottomRadius : ℚ := 60 * UnitConstants.mm
  seedConfMaxZOrigin : ℚ := 150 * UnitConstants.mm
  minImpactSeedConf : ℚ := 1 * UnitConstants.mm
  maxSeedsPerSpMConf : ℤ := 2147483647
  maxQualitySeedsPerSpMConf : ℤ := 2147483647
  useDeltaRorTopRadius : Bool := false
  deriving DecidableEq

/-- SeedFilterConfig::toInternalUnits: return a copy with each
length-valued field divided by one millimetre (and the inverse-length
field divided by an inverse millimetre); the receiver is untouched. -/
def SeedFilterConfig.toInternalUnits (c : SeedFilterConfig) :
    SeedFilterConfig :=
  { c with
    deltaRMin := c.deltaRMin / UnitConstants.mm,
    deltaInvHelixDiameter := c.deltaInvHelixDiameter / (1 / UnitConstants.mm),
    seedConfMinBottomRadius := c.seedConfMinBottomRadius / UnitConstants.mm,
    seedConfMaxZOrigin := c.seedConfMaxZOrigin / UnitConstants.mm,
    minImpactSeedConf := c.minImpactSeedConf / UnitConstants.mm }

/-! ### Chi-squared evaluator (MeasurementSelector::calculateChi2) -/

/-- Upper bound on the measurement dimension over which visit_measurement
dispatches; the source fixes it to the bound-parameter dimension. -/
abbrev MeasurementSizeMax : ℕ := 6

/-- Analytic inverse of a small dense matrix by the adjugate formula, the
way dense fixed-size inversion computes it; it agrees with the true
inverse whenever the determinant is nonzero (the source leaves a singular
innovation matrix undefined, the caller's responsibility). -/
def matInverse {k : ℕ} (A : Matrix (Fin k) (Fin k) ℚ) :
    Matrix (Fin k) (Fin k) ℚ :=
  (A.det)⁻¹ • A.adjugate

/-- MeasurementSelector::calculateChi2: dispatch on the effective
measurement dimension (visit_measurement throws outside
1..MeasurementSizeMax, modelled by none), restrict the calibrated
measurement, its covariance and the projector to the leading block of
that dimension, and return the chi-squared of the residual against the
innovation covariance. -/
def calculateChi2 (calibratedSize : ℕ)
    (fullCalibrated : Fin 6 → ℚ)
    (fullCalibratedCovariance : Matrix (Fin 6) (Fin 6) ℚ)
    (predicted : Fin 6 → ℚ)
    (predictedCovariance : Matrix (Fin 6) (Fin 6) ℚ)
    (projector : Matrix (Fin 6) (Fin 6) ℚ) : Option ℚ :=
  if h : 1 ≤ calibratedSize ∧ calibratedSize ≤ MeasurementSizeMax then
    let calibrated : Fin calibratedSize → ℚ :=
      fun i => fullCalibrated (Fin.castLE h.2 i)
    let calibratedCovariance :
        Matrix (Fin calibratedSize) (Fin calibratedSize) ℚ :=
      Matrix.of fun i j =>
        fullCalibratedCovariance (Fin.castLE h.2 i) (Fin.castLE h.2 j)
    let H : Matrix (Fin calibratedSize) (Fin 6) ℚ :=
      Matrix.of fun i j => projector (Fin.castLE h.2 i) j
    let res : Fin calibratedSize → ℚ := calibrated - H.mulVec predicted
    some (Matrix.dotProduct res
      ((matInverse (calibratedCovariance +
        H * predictedCovariance * H.transpose)).mulVec res))
  else none

/-- The chi-squared formula exactly as the design text states it: H_k the
leading k x eBoundSize sub-block of the projector, residual r = m - H_k x,
innovation covariance S = V + H_k C H_k transposed, result the scalar
r (S inverse) r. -/
def chi2SpecFormula (k : ℕ) (hk : k ≤ 6) (m : Fin 6 → ℚ)
    (V : Matrix (Fin 6) (Fin 6) ℚ) (x : Fin 6 → ℚ)
    (C : Matrix (Fin 6) (Fin 6) ℚ)
    (H : Matrix (Fin 6) (Fin 6) ℚ) : ℚ :=
  let Hk : Matrix (Fin k) (Fin 6) ℚ :=
    Matrix.of fun i j => H (Fin.castLE hk i) j
  let r : Fin k → ℚ :=
    (fun i => m (Fin.castLE hk i)) - Hk.mulVec x
  let S : Matrix (Fin k) (Fin k) ℚ :=
    (Matrix.of fun i j => V (Fin.castLE hk i) (Fin.castLE hk j)) +
      Hk * C * Hk.transpose
  Matrix.dotProduct r ((matInverse S).mulVec r)

/-- The concrete chi-squared scenario: measurement (1, 0). -/
def chi2m : Fin 6 → ℚ := fun i => if i = 0 then 1 else 0

/-- The concrete chi-squared scenario: measurement covariance V = identity. -/
def chi2V : Matrix (Fin 6) (Fin 6) ℚ := 1

/-- The concrete chi-squared scenario: predicted parameters x = 0. -/
def chi2x : Fin 6 → ℚ := fun _ => 0

/-- The concrete chi-squared scenario: predicted covariance C = 0. -/
def chi2C : Matrix (Fin 6) (Fin 6) ℚ := 0

/-- The concrete chi-squared scenario: projector H = identity. -/
def chi2H : Matrix (Fin 6) (Fin 6) ℚ := 1

/-! ### Concrete scenarios for the Kalman actor -/

/-- A sensitive surface carrying one measurement. -/
def surfA : Surface := ⟨7, true, false⟩

/-- The source link on surfA. -/
def slA : SourceLink := ⟨7, 0⟩

/-- An outlier-tagged track state, as the updater delegate appends one
when the outlier finder rejects the measurement. -/
def outlierNode : TrackState :=
  { (default : TrackState) with
    surface := surfA, flags := { outlier := true }, previous := some 0 }

/-- A measurement-tagged track state with non-trivial filtered values. -/
def measNode : TrackState :=
  { (default : TrackState) with
    surface := surfA, flags := { measurement := true },
    filtered := fun _ => 3, filteredCov := 1 }

/-- Environment whose measurement handler appends an outlier state for
the measurement on surfA. -/
def envOutlier : Env :=
  { trivialEnv with
    inputMeasurements := [(7, slA)],
    kalmanHandleMeasurement := fun _ _ _ mt _ =>
      .ok (⟨mt.states.push outlierNode⟩, mt.states.size) }

/-- A fit result holding one earlier measurement state at index 0. -/
def resultOneMeas : FitResult :=
  { fittedStates := ⟨#[measNode]⟩,
    lastMeasurementIndex := some 0, lastTrackIndex := some 0,
    measurementStates := 1, processedStates := 1 }

/-- A fit result whose slot already carries an opaque extension error and
which recorded no measurement states. -/
def krErr : FitResult := { measurementStates := 0, result := .error (.ext 5) }

/-- Environment whose measurement handler appends a measurement-tagged
state for the single measurement on surfA. -/
def envMeas : Env :=
  { trivialEnv with
    inputMeasurements := [(7, slA)],
    kalmanHandleMeasurement := fun _ _ _ mt _ =>
      .ok (⟨mt.states.push measNode⟩, mt.states.size) }

/-- A propagator state currently on surfA, so that the terminating actor
invocation filters the last measurement itself. -/
def sMeas : PropState := { navigation := { currentSurface := some surfA } }

/-- A fit result that has been smoothed, with one measurement state. -/
def rSmoothed : FitResult := { smoothed := true, measurementStates := 1 }

/-- A finished fit result. -/
def rFinished : FitResult := { finished := true }

/-! ## Theorems -/

/-- C9: for every environment, propagator state and fit result with
finished = true, invoking the Kalman actor returns the propagator state
and the fit result entirely unchanged (the call is a no-op). -/
theorem actor_noop_after_finished (env : Env) (state : PropState)
    (result : FitResult) (h : result.finished = true) :
    actorStep env state result = (state, result) := by
  simp [actorStep, h]

/-- Witness for C9 at a concrete finished result. -/
theorem actor_noop_after_finished_witness :
    actorStep trivialEnv {} rFinished = ({}, rFinished) :=
  actor_noop_after_finished trivialEnv {} rFinished rfl

/-- C10: the DirectNavigator fit overload never copies the
freeToBoundCorrection option into the actor, which therefore keeps the
default (disabled) correction, while the standard overload copies the
option field. -/
theorem direct_fit_drops_freeToBoundCorrection
    (ms : List (ℕ × SourceLink)) (o : KalmanFitterOptions) :
    (setupKalmanActorDirect ms o).freeToBoundCorrection =
        ({} : FreeToBoundCorrection) ∧
      ({} : FreeToBoundCorrection).apply = false ∧
      (setupKalmanActorStandard ms o).freeToBoundCorrection =
        o.freeToBoundCorrection :=
  ⟨rfl, rfl, rfl⟩

/-- C8: applying the seed-filter internal-units transform twice yields
the same configuration as applying it once (idempotence from the second
application onward; the transform is a pure function by construction,
returning a copy and leaving the receiver untouched). -/
theorem toInternalUnits_idempotent (c : SeedFilterConfig) :
    c.toInternalUnits.toInternalUnits = c.toInternalUnits := by
  simp [SeedFilterConfig.toInternalUnits, UnitConstants.mm]

/-- Counterexample to C3 as stated: a fit in which propagation succeeds
and zero measurement states were recorded, but whose result slot already
carries an error stored by the actor, returns that error rather than
NoMeasurementFound. -/
theorem fit_noMeasurementFound_counterexample :
    krErr.measurementStates = 0 ∧
      fitPostProcess (.ok krErr) ≠ .error (.kf .NoMeasurementFound) := by
  decide

/-- C3 (amended): for every fit call in which propagation succeeds, the
actor stored no error in the result slot, and zero non-outlier
measurement states were recorded, the fit entry point returns the error
NoMeasurementFound rather than a populated fit result. -/
theorem fit_noMeasurementFound (kr : FitResult) (hok : kr.result = .ok ())
    (h0 : kr.measurementStates = 0) :
    fitPostProcess (.ok kr) = .error (.kf .NoMeasurementFound) := by
  simp [fitPostProcess, hok, h0]

/-- Witness for C3: the default (empty) fit outcome. -/
theorem fit_noMeasurementFound_witness :
    ({} : FitResult).result = .ok () ∧
      ({} : FitResult).measurementStates = 0 ∧
      fitPostProcess (.ok ({} : FitResult)) =
        .error (.kf .NoMeasurementFound) :=
  ⟨rfl, rfl, fit_noMeasurementFound {} rfl rfl⟩

/-- Reading back the entry an arena write went to. -/
theorem modifyState_getD (mt : MultiTrajectory) (i : ℕ)
    (f : TrackState → TrackState) (h : i < mt.states.size) :
    (mt.modifyState i f).states.getD i default =
      f (mt.states.getD i default) := by
  simp [MultiTrajectory.modifyState, Array.getD, Array.size_modify, h,
    Array.getElem_modify]

/-- C5: the reverse transition fails with ReverseNavigationFailed if and
only if lastMeasurementIndex holds the sentinel; otherwise it sets
reversed = true, copies the last-measurement state's filtered parameters
and covariance into its smoothed slots, appends its surface to
passedAgainSurfaces, and leaves the propagator in the state obtained by
resetting the stepper to that state's filtered parameters with covariance
multiplied by reversedFilteringCovarianceScaling, resetting navigation
and applying the material interaction. -/
theorem reverse_spec (env : Env) (s : PropState) (r : FitResult) :
    ((reverse env s r).2.2 ≠ none ↔ r.lastMeasurementIndex = none) ∧
      (r.lastMeasurementIndex = none →
        (reverse env s r).2.2 = some (.kf .ReverseNavigationFailed)) ∧
      (∀ i, r.lastMeasurementIndex = some i →
        i < r.fittedStates.states.size →
        ((reverse env s r).2.2 = none ∧
          (reverse env s r).2.1.reversed = true ∧
          ((reverse env s r).2.1.fittedStates.states.getD i default).smoothed =
            (r.fittedStates.states.getD i default).filtered ∧
          ((reverse env s r).2.1.fittedStates.states.getD i
              default).smoothedCov =
            (r.fittedStates.states.getD i default).filteredCov ∧
          ((reverse env s r).2.1.fittedStates.states.getD i
              default).hasSmoothed = true ∧
          (reverse env s r).2.1.passedAgainSurfaces =
            r.passedAgainSurfaces ++
              [(r.fittedStates.states.getD i default).surface] ∧
          (reverse env s r).1 =
            (let newDir := s.stepping.navDir.flip
             let opts1 : PropOptions := { s.options with
               maxStepSize := newDir.sign * |s.options.maxStepSize|,
               pathLimit := newDir.sign * |s.options.pathLimit| }
             let st := r.fittedStates.states.getD i default
             let stepping2 := env.stepperResetState
               { s.stepping with navDir := newDir } st.filtered
               (env.reversedFilteringCovarianceScaling • st.filteredCov)
               st.surface newDir opts1.maxStepSize
             let stateMid : PropState :=
               { navigation := s.navigation, stepping := stepping2,
                 options := opts1 }
             let nav1 := env.navigationReset stateMid st.surface
               env.targetSurface
             materialInteractor env nav1.currentSurface
               { stateMid with navigation := nav1 }))) := by
  rcases hl : r.lastMeasurementIndex with _ | i0
  · simp [reverse, hl]
  · refine ⟨by simp [reverse, hl], by simp [hl], ?_⟩
    intro i hi hsize
    have hii : i0 = i := Option.some.inj hi
    subst hii
    simp only [reverse, hl]
    simp [modifyState_getD _ _ _ hsize]

/-- Witness for C5 at a concrete one-measurement fit result. -/
theorem reverse_spec_witness :
    (reverse trivialEnv {} resultOneMeas).2.1.reversed = true ∧
      ((reverse trivialEnv {} resultOneMeas).2.1.fittedStates.states.getD 0
          default).smoothed = measNode.filtered :=
  ⟨((reverse_spec trivialEnv {} resultOneMeas).2.2 0 rfl
      (by decide)).2.1,
    ((reverse_spec trivialEnv {} resultOneMeas).2.2 0 rfl
      (by decide)).2.2.1⟩

/-- Storing an optional error touches only the result slot. -/
theorem applyErr_flags (r : FitResult) (e? : Option FitError) :
    (applyErr r e?).reversed = r.reversed ∧
      (applyErr r e?).smoothed = r.smoothed := by
  cases e? <;> exact ⟨rfl, rfl⟩

/-- The forward filter never writes the smoothed or reversed flags. -/
theorem filter_flags (env : Env) (sf : Surface) (s : PropState)
    (r : FitResult) :
    (filter env sf s r).2.1.reversed = r.reversed ∧
      (filter env sf s r).2.1.smoothed = r.smoothed := by
  unfold filter
  dsimp only
  repeat' split
  all_goals simp

/-- The reversed filter never writes the smoothed or reversed flags. -/
theorem reversedFilter_flags (env : Env) (sf : Surface) (s : PropState)
    (r : FitResult) :
    (reversedFilter env sf s r).2.1.reversed = r.reversed ∧
      (reversedFilter env sf s r).2.1.smoothed = r.smoothed := by
  unfold reversedFilter
  dsimp only
  repeat' split
  all_goals simp

/-- The filtering phase never writes the smoothed or reversed flags. -/
theorem filteringPhase_flags (env : Env) (s : PropState) (r : FitResult) :
    (filteringPhase env s r).2.reversed = r.reversed ∧
      (filteringPhase env s r).2.smoothed = r.smoothed := by
  unfold filteringPhase
  rcases s.navigation.currentSurface with _ | sf
  · exact ⟨rfl, rfl⟩
  · dsimp only
    by_cases hg : (!r.smoothed && !r.reversed) = true
    · rw [if_pos hg]
      obtain ⟨hfr, hfs⟩ := filter_flags env sf s r
      obtain ⟨har, has⟩ :=
        applyErr_flags (filter env sf s r).2.1 (filter env sf s r).2.2
      by_cases hrev : (applyErr (filter env sf s r).2.1
          (filter env sf s r).2.2).reversed = true
      · rw [if_pos hrev]
        obtain ⟨hrr, hrs⟩ := reversedFilter_flags env sf
          (filter env sf s r).1
          (applyErr (filter env sf s r).2.1 (filter env sf s r).2.2)
        obtain ⟨har2, has2⟩ := applyErr_flags
          (reversedFilter env sf (filter env sf s r).1
            (applyErr (filter env sf s r).2.1 (filter env sf s r).2.2)).2.1
          (reversedFilter env sf (filter env sf s r).1
            (applyErr (filter env sf s r).2.1 (filter env sf s r).2.2)).2.2
        constructor
        · rw [har2, hrr, har, hfr]
        · rw [has2, hrs, has, hfs]
      · rw [if_neg hrev]
        exact ⟨by rw [har, hfr], by rw [has, hfs]⟩
    · rw [if_neg hg]
      by_cases hrev : r.reversed = true
      · rw [if_pos hrev]
        obtain ⟨hrr, hrs⟩ := reversedFilter_flags env sf s r
        obtain ⟨har2, has2⟩ := applyErr_flags
          (reversedFilter env sf s r).2.1 (reversedFilter env sf s r).2.2
        exact ⟨by rw [har2, hrr], by rw [has2, hrs]⟩
      · rw [if_neg hrev]
        exact ⟨rfl, rfl⟩

/-- C2: for an effective dimension between 1 and MeasurementSizeMax,
calculateChi2 returns the residual chi-squared exactly as the design
formula states it (residual against the leading sub-block of the
projector, innovation covariance V plus the projected predicted
covariance); in particular for m = (1,0), x = 0, identity projector,
identity measurement covariance and zero predicted covariance it returns
exactly 1, and whenever the calibrated measurement equals the projected
prediction it returns exactly 0. -/
theorem calculateChi2_spec :
    (∀ (k : ℕ) (h1 : 1 ≤ k) (h6 : k ≤ MeasurementSizeMax)
        (m : Fin 6 → ℚ) (V : Matrix (Fin 6) (Fin 6) ℚ) (x : Fin 6 → ℚ)
        (C : Matrix (Fin 6) (Fin 6) ℚ) (H : Matrix (Fin 6) (Fin 6) ℚ),
        calculateChi2 k m V x C H = some (chi2SpecFormula k h6 m V x C H)) ∧
      calculateChi2 2 chi2m chi2V chi2x chi2C chi2H = some 1 ∧
      (∀ (k : ℕ) (h1 : 1 ≤ k) (h6 : k ≤ MeasurementSizeMax)
        (m : Fin 6 → ℚ) (V : Matrix (Fin 6) (Fin 6) ℚ) (x : Fin 6 → ℚ)
        (C : Matrix (Fin 6) (Fin 6) ℚ) (H : Matrix (Fin 6) (Fin 6) ℚ),
        (fun i : Fin k => m (Fin.castLE h6 i)) =
          (Matrix.of fun (i : Fin k) (j : Fin 6) =>
            H (Fin.castLE h6 i) j).mulVec x →
        calculateChi2 k m V x C H = some 0) := by
  have main : ∀ (k : ℕ) (h1 : 1 ≤ k) (h6 : k ≤ MeasurementSizeMax)
      (m : Fin 6 → ℚ) (V : Matrix (Fin 6) (Fin 6) ℚ) (x : Fin 6 → ℚ)
      (C : Matrix (Fin 6) (Fin 6) ℚ) (H : Matrix (Fin 6) (Fin 6) ℚ),
      calculateChi2 k m V x C H = some (chi2SpecFormula k h6 m V x C H) := by
    intro k h1 h6 m V x C H
    rw [calculateChi2, dif_pos (And.intro h1 h6)]
    rfl
  refine ⟨main, ?_, ?_⟩
  · have h12 : (1:ℕ) ≤ 2 ∧ 2 ≤ MeasurementSizeMax := by norm_num
    rw [calculateChi2, dif_pos h12]
    simp [matInverse, chi2m, chi2V, chi2x, chi2C, chi2H,
      Matrix.mulVec, Matrix.dotProduct, Matrix.mul_apply, Matrix.one_apply,
      Fin.sum_univ_two, Fin.sum_univ_six, Matrix.adjugate_fin_two,
      Matrix.det_fin_two, Matrix.of_apply, Fin.castLE]
  · intro k h1 h6 m V x C H hres
    rw [main k h1 h6 m V x C H]
    have hr0 : ((fun i : Fin k => m (Fin.castLE h6 i)) -
        (Matrix.of fun (i : Fin k) (j : Fin 6) =>
          H (Fin.castLE h6 i) j).mulVec x) = 0 :=
      sub_eq_zero_of_eq hres
    unfold chi2SpecFormula
    dsimp only
    rw [hr0]
    simp [Matrix.zero_dotProduct]

/-- Witness for C2 at the concrete two-dimensional measurement. -/
theorem calculateChi2_spec_witness :
    (1:ℕ) ≤ 2 ∧ (2:ℕ) ≤ MeasurementSizeMax ∧
      calculateChi2 2 chi2m chi2V chi2x chi2C chi2H =
        some (chi2SpecFormula 2 (by norm_num) chi2m chi2V chi2x chi2C chi2H) :=
  ⟨by norm_num, by norm_num,
    calculateChi2_spec.1 2 (by norm_num) (by norm_num) chi2m chi2V chi2x
      chi2C chi2H⟩

/-- std::vector::resize always leaves exactly the requested number of
entries. -/
theorem listResize_length (l : List Surface) (n : ℕ) :
    (listResize l n).length = n := by
  simp [listResize]
  omega

/-- Storing an optional error touches neither the missed-surface list nor
the hole counter. -/
theorem applyErr_missed (r : FitResult) (e? : Option FitError) :
    (applyErr r e?).missedActiveSurfaces = r.missedActiveSurfaces ∧
      (applyErr r e?).measurementHoles = r.measurementHoles := by
  cases e? <;> exact ⟨rfl, rfl⟩

/-- The reverse transition touches neither the missed-surface list nor
the hole counter. -/
theorem reverse_missed (env : Env) (s : PropState) (r : FitResult) :
    (reverse env s r).2.1.missedActiveSurfaces = r.missedActiveSurfaces ∧
      (reverse env s r).2.1.measurementHoles = r.measurementHoles := by
  unfold reverse
  dsimp only
  repeat' split
  all_goals simp

/-- Finalize/smooth touches neither the missed-surface list nor the hole
counter. -/
theorem finalize_missed (env : Env) (s : PropState) (r : FitResult) :
    (finalize env s r).2.1.missedActiveSurfaces = r.missedActiveSurfaces ∧
      (finalize env s r).2.1.measurementHoles = r.measurementHoles := by
  unfold finalize
  dsimp only
  repeat' split
  all_goals simp

/-- The post-finalization phase touches neither the missed-surface list
nor the hole counter. -/
theorem postFinalization_missed (env : Env) (s : PropState)
    (r : FitResult) :
    (postFinalization env s r).2.missedActiveSurfaces =
        r.missedActiveSurfaces ∧
      (postFinalization env s r).2.measurementHoles = r.measurementHoles := by
  unfold postFinalization
  try dsimp only
  repeat' split
  all_goals (try dsimp only)
  all_goals simp

/-- The reversed filter touches neither the missed-surface list nor the
hole counter. -/
theorem reversedFilter_missed (env : Env) (sf : Surface) (s : PropState)
    (r : FitResult) :
    (reversedFilter env sf s r).2.1.missedActiveSurfaces =
        r.missedActiveSurfaces ∧
      (reversedFilter env sf s r).2.1.measurementHoles =
        r.measurementHoles := by
  unfold reversedFilter
  dsimp only
  repeat' split
  all_goals simp

/-- The post-finalization phase never writes the smoothed or reversed
flags. -/
theorem postFinalization_flags (env : Env) (s : PropState)
    (r : FitResult) :
    (postFinalization env s r).2.smoothed = r.smoothed ∧
      (postFinalization env s r).2.reversed = r.reversed := by
  unfold postFinalization
  try dsimp only
  repeat' split
  all_goals (try dsimp only)
  all_goals simp

/-- Finalize sets the smoothed flag on entry, in every outcome. -/
theorem finalize_sets_smoothed (env : Env) (s : PropState)
    (r : FitResult) :
    (finalize env s r).2.1.smoothed = true := by
  unfold finalize
  dsimp only
  repeat' split
  all_goals simp

/-- With neither flag set, the post-finalization phase does nothing. -/
theorem postFinalization_skip (env : Env) (s : PropState) (r : FitResult)
    (h1 : r.smoothed = false) (h2 : r.reversed = false) :
    postFinalization env s r = (s, r) := by
  unfold postFinalization
  simp [h1, h2]

/-- Once smoothed or reversed, the finalization phase does nothing. -/
theorem finalizationPhase_skip (env : Env) (s : PropState) (r : FitResult)
    (h : (r.smoothed || r.reversed) = true) :
    finalizationPhase env s r = (s, r) := by
  have hg : (!r.smoothed && !r.reversed) = false := by
    revert h
    cases r.smoothed <;> cases r.reversed <;> simp
  unfold finalizationPhase
  simp [hg]

/-- Once smoothed or reversed, the filtering phase runs at most the
reversed filter, which preserves the missed-surface list and the hole
counter. -/
theorem filteringPhase_missed_after (env : Env) (s : PropState)
    (r : FitResult) (h : (r.smoothed || r.reversed) = true) :
    (filteringPhase env s r).2.missedActiveSurfaces =
        r.missedActiveSurfaces ∧
      (filteringPhase env s r).2.measurementHoles = r.measurementHoles := by
  have hg : (!r.smoothed && !r.reversed) = false := by
    revert h
    cases r.smoothed <;> cases r.reversed <;> simp
  unfold filteringPhase
  rcases s.navigation.currentSurface with _ | sf
  · exact ⟨rfl, rfl⟩
  · dsimp only
    simp only [hg, Bool.false_eq_true, if_false]
    by_cases hrv : r.reversed = true
    · rw [if_pos hrv]
      simp [applyErr_missed, reversedFilter_missed]
    · rw [if_neg hrv]
      exact ⟨rfl, rfl⟩

/-- At a terminating invocation the finalization phase truncates the
missed surfaces to the hole count and either sets a flag (smoothed by
finalize, reversed by a successful reverse) or stores an error on which
the aborter stops the propagation. -/
theorem finalizationPhase_terminate (env : Env) (s : PropState)
    (r : FitResult) (hsm : r.smoothed = false) (hrev : r.reversed = false)
    (hterm : (r.measurementStates == env.inputMeasurements.length ||
        (r.measurementStates > 0 && s.navigation.navigationBreak)) = true) :
    ((finalizationPhase env s r).2.missedActiveSurfaces.length =
        (finalizationPhase env s r).2.measurementHoles) ∧
      ((finalizationPhase env s r).2.smoothed = true ∨
        (finalizationPhase env s r).2.reversed = true ∨
        ((finalizationPhase env s r).2.smoothed = false ∧
          (finalizationPhase env s r).2.reversed = false ∧
          aborter (finalizationPhase env s r).2 = true)) := by
  unfold finalizationPhase
  simp only [hsm, hrev, Bool.not_false, Bool.and_self, if_true]
  rw [if_pos hterm]
  try dsimp only
  split
  · rcases hl : r.lastMeasurementIndex with _ | i
    · constructor
      · simp [reverse, hl, applyErr, listResize_length]
      · right; right
        refine ⟨?_, ?_, ?_⟩ <;>
          simp [reverse, hl, applyErr, aborter, hsm, hrev]
    · constructor
      · simp [reverse, hl, applyErr, listResize_length]
      · right; left
        simp [reverse, hl, applyErr]
  · constructor
    · simp [applyErr_missed, finalize_missed, listResize_length]
    · left
      simp [applyErr_flags, finalize_sets_smoothed]

/-- C7: when the forward pass terminates (all measurements found, or a
navigation break with at least one measurement, checked on the result the
filtering step of the same invocation produced), the missed active
surfaces are truncated to exactly measurementHoles entries, and the
invocation leaves the fit either flagged smoothed or reversed, or with a
stored error on which the aborter ends the propagation; and every
subsequent invocation of a smoothed or reversed fit preserves the
equality missedActiveSurfaces.size() == measurementHoles together with
the flags, so every final fit result satisfies it. -/
theorem missed_eq_holes (env : Env) (s : PropState) (r : FitResult) :
    (r.finished = false →
      ∀ s1 r1,
        filteringPhase env (injectExternalSurfaces env s r) r = (s1, r1) →
        r1.smoothed = false → r1.reversed = false →
        (r1.measurementStates == env.inputMeasurements.length ||
          (r1.measurementStates > 0 && s1.navigation.navigationBreak)) =
          true →
        ((actorStep env s r).2.missedActiveSurfaces.length =
            (actorStep env s r).2.measurementHoles ∧
          ((actorStep env s r).2.smoothed = true ∨
            (actorStep env s r).2.reversed = true ∨
            aborter (actorStep env s r).2 = true))) ∧
      ((r.smoothed = true ∨ r.reversed = true) →
        r.missedActiveSurfaces.length = r.measurementHoles →
        ((actorStep env s r).2.missedActiveSurfaces.length =
            (actorStep env s r).2.measurementHoles ∧
          ((actorStep env s r).2.smoothed = true ∨
            (actorStep env s r).2.reversed = true))) := by
  constructor
  · intro hfin s1 r1 hfp hsm1 hrev1 hterm
    have hstep : actorStep env s r =
        postFinalization env (finalizationPhase env s1 r1).1
          (finalizationPhase env s1 r1).2 := by
      simp [actorStep, hfin, hfp]
    obtain ⟨hkey1, hkey2⟩ :=
      finalizationPhase_terminate env s1 r1 hsm1 hrev1 hterm
    obtain ⟨hp1, hp2⟩ := postFinalization_missed env
      (finalizationPhase env s1 r1).1 (finalizationPhase env s1 r1).2
    obtain ⟨hq1, hq2⟩ := postFinalization_flags env
      (finalizationPhase env s1 r1).1 (finalizationPhase env s1 r1).2
    rw [hstep]
    refine ⟨by rw [hp1, hp2]; exact hkey1, ?_⟩
    rcases hkey2 with h | h | ⟨ha, hb, hc⟩
    · left
      rw [hq1]
      exact h
    · right; left
      rw [hq2]
      exact h
    · right; right
      rw [postFinalization_skip env (finalizationPhase env s1 r1).1
        (finalizationPhase env s1 r1).2 ha hb]
      exact hc
  · intro hflag heq
    by_cases hfin : r.finished = true
    · have hid : actorStep env s r = (s, r) := by simp [actorStep, hfin]
      rw [hid]
      exact ⟨heq, hflag⟩
    · have hfin' : r.finished = false := by
        revert hfin; cases r.finished <;> simp
      have hor : (r.smoothed || r.reversed) = true := by
        rcases hflag with h | h <;> simp [h]
      obtain ⟨hf1, hf2⟩ := filteringPhase_missed_after env
        (injectExternalSurfaces env s r) r hor
      obtain ⟨hg1, hg2⟩ := filteringPhase_flags env
        (injectExternalSurfaces env s r) r
      have hor1 : ((filteringPhase env
            (injectExternalSurfaces env s r) r).2.smoothed ||
          (filteringPhase env
            (injectExternalSurfaces env s r) r).2.reversed) = true := by
        rw [hg1, hg2]
        exact hor
      have hskip := finalizationPhase_skip env
        (filteringPhase env (injectExternalSurfaces env s r) r).1
        (filteringPhase env (injectExternalSurfaces env s r) r).2 hor1
      have hstep : actorStep env s r =
          postFinalization env
            (filteringPhase env (injectExternalSurfaces env s r) r).1
            (filteringPhase env (injectExternalSurfaces env s r) r).2 := by
        simp [actorStep, hfin', hskip]
      obtain ⟨hp1, hp2⟩ := postFinalization_missed env
        (filteringPhase env (injectExternalSurfaces env s r) r).1
        (filteringPhase env (injectExternalSurfaces env s r) r).2
      obtain ⟨hq1, hq2⟩ := postFinalization_flags env
        (filteringPhase env (injectExternalSurfaces env s r) r).1
        (filteringPhase env (injectExternalSurfaces env s r) r).2
      rw [hstep]
      constructor
      · rw [hp1, hp2, hf1, hf2]
        exact heq
      · rcases hflag with h | h
        · left
          rw [hq1, hg2]
          exact h
        · right
          rw [hq2, hg1]
          exact h

/-- Witness for C7: a terminating invocation that filters the single
(last) measurement on its current surface in the same call. -/
theorem missed_eq_holes_witness :
    (actorStep envMeas sMeas ({} : FitResult)).2.missedActiveSurfaces.length =
      (actorStep envMeas sMeas ({} : FitResult)).2.measurementHoles :=
  ((missed_eq_holes envMeas sMeas {}).1 rfl
    (filteringPhase envMeas (injectExternalSurfaces envMeas sMeas {}) {}).1
    (filteringPhase envMeas (injectExternalSurfaces envMeas sMeas {}) {}).2
    rfl (by decide) (by decide) (by decide)).1

/-- C6: after smoothing or reversed filtering, when no target surface was
provided, an actor invocation stores BackwardUpdateFailed if the fit is in
reversed mode; otherwise it marks finished = true, leaves the result
slot, the fitted parameters and the measurement count unchanged, and the
fit entry point then reports success (with fittedParameters still unset
when it was unset). -/
theorem actor_noTarget (env : Env) (s : PropState) (r : FitResult)
    (htgt : env.targetSurface = none) (hfin : r.finished = false) :
    (r.reversed = true →
        (actorStep env s r).2.result = .error (.kf .BackwardUpdateFailed)) ∧
      (r.smoothed = true → r.reversed = false →
        ((actorStep env s r).2.finished = true ∧
          (actorStep env s r).2.result = r.result ∧
          (actorStep env s r).2.fittedParameters = r.fittedParameters ∧
          (actorStep env s r).2.measurementStates = r.measurementStates ∧
          (r.result = .ok () → 0 < r.measurementStates →
            fitPostProcess (.ok (actorStep env s r).2) =
              .ok ((actorStep env s r).2)))) := by
  constructor
  · intro hrev
    have hstep : actorStep env s r =
        postFinalization env
          (finalizationPhase env
            (filteringPhase env (injectExternalSurfaces env s r) r).1
            (filteringPhase env (injectExternalSurfaces env s r) r).2).1
          (finalizationPhase env
            (filteringPhase env (injectExternalSurfaces env s r) r).1
            (filteringPhase env (injectExternalSurfaces env s r) r).2).2 := by
      simp [actorStep, hfin]
    obtain ⟨h1r, h1s⟩ :=
      filteringPhase_flags env (injectExternalSurfaces env s r) r
    have h2 : finalizationPhase env
        (filteringPhase env (injectExternalSurfaces env s r) r).1
        (filteringPhase env (injectExternalSurfaces env s r) r).2 =
        ((filteringPhase env (injectExternalSurfaces env s r) r).1,
         (filteringPhase env (injectExternalSurfaces env s r) r).2) := by
      unfold finalizationPhase
      rw [h1r, hrev]
      simp
    rw [hstep, h2]
    unfold postFinalization
    rw [h1r, hrev, htgt]
    simp
  · intro hsm hrev
    have hfp : filteringPhase env (injectExternalSurfaces env s r) r =
        (injectExternalSurfaces env s r, r) := by
      unfold filteringPhase
      rcases hcs : (injectExternalSurfaces env s r).navigation.currentSurface
        with _ | sf
      · rfl
      · dsimp only
        simp [hsm, hrev]
    have hstep : actorStep env s r =
        postFinalization env (injectExternalSurfaces env s r) r := by
      simp [actorStep, hfin, hfp, finalizationPhase, hsm]
    have hpost : postFinalization env (injectExternalSurfaces env s r) r =
        (injectExternalSurfaces env s r, { r with finished := true }) := by
      unfold postFinalization
      rw [hsm, htgt]
      simp [hrev]
    rw [hstep, hpost]
    refine ⟨rfl, rfl, rfl, rfl, ?_⟩
    intro hok hpos
    have hne : r.measurementStates ≠ 0 := Nat.pos_iff_ne_zero.mp hpos
    simp [fitPostProcess, hok, hne]

/-- Witness for C6 at a concrete smoothed one-measurement result without
target surface. -/
theorem actor_noTarget_witness :
    (actorStep trivialEnv {} rSmoothed).2.finished = true ∧
      fitPostProcess (.ok (actorStep trivialEnv {} rSmoothed).2) =
        .ok ((actorStep trivialEnv {} rSmoothed).2) :=
  ⟨((actor_noTarget trivialEnv {} rSmoothed rfl rfl).2 rfl rfl).1,
    ((actor_noTarget trivialEnv {} rSmoothed rfl rfl).2 rfl rfl).2.2.2.2
      rfl (by decide)⟩

/-- Counterexample to C4 as stated: finalizing a fit whose backward walk
finds zero states fails with SmoothFailed, yet the smoothed flag of the
result has been set to true (the source sets it on entry, before the
check), not left false as claimed. -/
theorem finalize_smoothFailed_counterexample :
    (finalize trivialEnv {} ({} : FitResult)).2.2 =
        some (.kf .SmoothFailed) ∧
      (finalize trivialEnv {} ({} : FitResult)).2.1.smoothed = true ∧
      ({} : FitResult).smoothed = false := by
  decide

/-- C4 (amended): finalize fails with SmoothFailed exactly when the
backward walk from lastMeasurementIndex finds zero states to smooth;
however the smoothed flag is set to true on entry, before that check and
before the smoother extension runs, so after a SmoothFailed error the
result's smoothed flag is true. -/
theorem finalize_smoothFailed (env : Env) (state : PropState)
    (r : FitResult) :
    ((finalize env state r).2.2 = some (.kf .SmoothFailed) ↔
        r.fittedStates.backwardIndices r.lastMeasurementIndex = []) ∧
      (finalize env state r).2.1.smoothed = true := by
  by_cases hv : r.fittedStates.backwardIndices r.lastMeasurementIndex = []
  · simp [finalize, hv]
  · have hlen : ((r.fittedStates.backwardIndices
        r.lastMeasurementIndex).length = 0) = False := by
      simpa [List.length_eq_zero] using hv
    simp only [finalize, hlen, if_false, hv, iff_false]
    rcases hsm : env.smoother state r.fittedStates
        (r.lastMeasurementIndex.getD 0) with e | mt'
    · simp [hsm]
    · rcases ht : env.targetSurface with _ | tgt <;> simp [hsm, ht]

/-- Counterexample to C1 as stated: on a measurement surface whose new
track state is tagged as an outlier (not flagged Measurement), the
forward filter nevertheless updates lastMeasurementIndex (the source
assigns it unconditionally in the measurement branch). -/
theorem filter_outlier_counterexample :
    ((filter envOutlier surfA {} resultOneMeas).2.1.fittedStates.states.getD
        1 default).flags.measurement = false ∧
      (filter envOutlier surfA {} resultOneMeas).2.1.lastMeasurementIndex ≠
        resultOneMeas.lastMeasurementIndex := by
  decide

/-- C1 (amended): in the forward filter, when the updater tags the new
track state as an outlier (not flagged Measurement), measurementStates is
not incremented, a track state is still produced and lastTrackIndex
advances to its index, and lastMeasurementIndex is also updated to that
same index (the source updates it unconditionally on every measurement
surface). -/
theorem filter_outlier (env : Env) (surface : Surface) (state : PropState)
    (result : FitResult) (sl : SourceLink) (mt' : MultiTrajectory) (idx : ℕ)
    (hfind : lookupMeasurement env surface.geometryId = some sl)
    (hhandle : ∀ s, env.kalmanHandleMeasurement s surface sl
      result.fittedStates result.lastTrackIndex = .ok (mt', idx))
    (houtlier : (mt'.states.getD idx default).flags.measurement = false) :
    (filter env surface state result).2.2 = none ∧
      (filter env surface state result).2.1.measurementStates =
        result.measurementStates ∧
      (filter env surface state result).2.1.fittedStates = mt' ∧
      (filter env surface state result).2.1.lastTrackIndex = some idx ∧
      (filter env surface state result).2.1.lastMeasurementIndex = some idx := by
  simp [Array.getD_eq_get?] at houtlier
  simp [filter, hfind, hhandle, houtlier]

/-- Witness for C1 at the concrete outlier scenario. -/
theorem filter_outlier_witness :
    (filter envOutlier surfA {} resultOneMeas).2.1.lastMeasurementIndex =
        some 1 ∧
      (filter envOutlier surfA {} resultOneMeas).2.1.measurementStates =
        resultOneMeas.measurementStates :=
  ⟨(filter_outlier envOutlier surfA {} resultOneMeas slA
      ⟨#[measNode, outlierNode]⟩ 1 (by decide) (fun _ => rfl)
      (by decide)).2.2.2.2,
    (filter_outlier envOutlier surfA {} resultOneMeas slA
      ⟨#[measNode, outlierNode]⟩ 1 (by decide) (fun _ => rfl)
      (by decide)).2.1⟩

end Acts
